import Mathlib

/-!
Verification of the configuration loader of `cassandra-migrate`
(`cassandra_migrate/config.py`), as a shallow embedding in Lean 4.

The embedding follows the Python source under Python 3 semantics:
  * configuration documents are trees of YAML-style values (`Value`);
  * Python exceptions are modelled by the `PyError` type
    (`ConfigValidationError` is the error class defined by the module
    itself, the remaining constructors model built-in Python exceptions);
  * `string.Formatter.parse` / `vformat` (the CPython `string` module) are
    embedded faithfully for string-valued fields, including the format-spec
    mini-language of `str.__format__`, escaped braces, conversions and
    nested format specs.  Attribute and index accesses on substituted
    values (`\x7ba.b\x7d`, `\x7ba[0]\x7d`) are outside the model: field values are
    modelled as plain strings, so such accesses are mapped to an
    `attributeError`; no template used by the module performs them.
  * `re.match` on the identifier pattern is embedded including the CPython
    semantics of `$`, which also matches just before a single trailing
    newline.

String literals write braces and single quotes with `\x7b`, `\x7d` and
`\x27` escapes; the denoted strings are exactly the Python ones.
-/

set_option maxHeartbeats 1000000

/-- Values of a parsed YAML configuration document.  `null` models Python
`None`; `dict` models a Python `dict` as an association list (keys unique,
in insertion order). -/
inductive Value where
  | null
  | str (s : String)
  | int (n : Int)
  | bool (b : Bool)
  | dict (entries : List (String × Value))

/-- Python types used as the `type_` argument of
`MigrationConfig.extract_config_entry` (`unicode` is `str` under
Python 3 / python-future). -/
inductive PyType where
  | str
  | dict
  | bool
deriving DecidableEq, Repr

/-- Python exceptions raised by the embedded code.
`configValidationError key value msg` models the module's
`ConfigValidationError` carrying the offending key path and rejected value
(`Value.null` models Python `None`); the other constructors model the
built-in `ValueError`, `AttributeError`, `KeyError`, `IndexError` and
`TypeError`. -/
inductive PyError where
  | configValidationError (key : String) (value : Value) (msg : String)
  | valueError (msg : String)
  | attributeError (msg : String)
  | keyError (key : String)
  | indexError (msg : String)
  | typeError (msg : String)

/-- Python `isinstance(value, t)` for the types used by the module. -/
def isInstance : Value → PyType → Bool
  | .str _, .str => true
  | .dict _, .dict => true
  | .bool _, .bool => true
  | _, _ => false

/-- Rendering of `type(value)` as in `\x27\x7b\x7d\x27.format(type(value))`. -/
def type_name : Value → String
  | .null => "<class \x27NoneType\x27>"
  | .str _ => "<class \x27str\x27>"
  | .int _ => "<class \x27int\x27>"
  | .bool _ => "<class \x27bool\x27>"
  | .dict _ => "<class \x27dict\x27>"

/-- Rendering of a `PyType` as in `\x27\x7b\x7d\x27.format(type_)`. -/
def py_type_name : PyType → String
  | .str => "<class \x27str\x27>"
  | .dict => "<class \x27dict\x27>"
  | .bool => "<class \x27bool\x27>"

/-- Python `data.get(key, None)`: requires `data` to be a `dict`
(anything else has no `get` attribute and raises `AttributeError`);
an absent key yields `None`. -/
def py_dict_get : Value → String → Except PyError Value
  | .dict entries, key => .ok ((entries.lookup key).getD .null)
  | .null, _ => .error (.attributeError "\x27NoneType\x27 object has no attribute \x27get\x27")
  | .str _, _ => .error (.attributeError "\x27str\x27 object has no attribute \x27get\x27")
  | .int _, _ => .error (.attributeError "\x27int\x27 object has no attribute \x27get\x27")
  | .bool _, _ => .error (.attributeError "\x27bool\x27 object has no attribute \x27get\x27")

/-- Python `d[k] = v` on a dict modelled as an association list: an
existing key keeps its position and gets the new value, a new key is
appended. -/
def dictSet (d : List (String × Value)) (k : String) (v : Value) :
    List (String × Value) :=
  if d.any (fun p => p.1 = k) then
    d.map (fun p => if p.1 = k then (k, v) else p)
  else
    d ++ [(k, v)]

/-- Python `d.update(items)` for an iterable of key
value pairs. -/
def dictUpdate (d : List (String × Value)) (items : List (String × Value)) :
    List (String × Value) :=
  items.foldl (fun acc p => dictSet acc p.1 p.2) d

/-- One tuple yielded by `string.Formatter.parse`:
`(literal_text, field_name, format_spec, conversion)`.  For a literal-only
chunk the last three components are Python `None` (here `none`); for a
replacement field `format_spec` is at least the empty string. -/
structure FormatChunk where
  literal_text : String
  field_name : Option String
  format_spec : Option String
  conversion : Option String
deriving DecidableEq, Repr

/-- Scan literal text up to (excluding) the first `\x7b` or `\x7d`
(CPython `MarkupIterator_next`, literal phase). -/
def scanLiteral : List Char → List Char × List Char
  | [] => ([], [])
  | c :: rest =>
    if c = '{' ∨ c = '}' then ([], c :: rest)
    else
      let p := scanLiteral rest
      (c :: p.1, p.2)

theorem scanLiteral_append (s : List Char) :
    (scanLiteral s).1 ++ (scanLiteral s).2 = s := by
  induction s with
  | nil => rfl
  | cons c rest ih =>
    simp only [scanLiteral]
    split
    · rfl
    · simpa using ih

theorem scanLiteral_length (s : List Char) :
    (scanLiteral s).2.length ≤ s.length := by
  conv_rhs => rw [← scanLiteral_append s]
  simp

/-- Skip the characters of a `[...]` element index inside a field name,
up to (excluding) the closing `]` (or the end of the string). -/
def dropToRBracket : List Char → List Char × List Char
  | [] => ([], [])
  | c :: rest =>
    if c = ']' then ([], c :: rest)
    else
      let p := dropToRBracket rest
      (c :: p.1, p.2)

theorem dropToRBracket_append (s : List Char) :
    (dropToRBracket s).1 ++ (dropToRBracket s).2 = s := by
  induction s with
  | nil => rfl
  | cons c rest ih =>
    simp only [dropToRBracket]
    split
    · rfl
    · simpa using ih

theorem dropToRBracket_length (s : List Char) :
    (dropToRBracket s).2.length ≤ s.length := by
  conv_rhs => rw [← dropToRBracket_append s]
  simp

/-- Scan a replacement-field name up to its terminator `\x7d`, `:` or `!`
(CPython `parse_field`, name phase), structurally recursive on a fuel
bound.  Characters inside `[...]` are not interpreted; a `\x7b` is
rejected; running out of input without a terminator is the CPython error
for a field that never closes.  The fuel is a recursion bound only: every
step consumes at least one character, so the canonical fuel
`s.length + 1` used by `scanFieldName` never reaches the exhaustion
branch (`scanFieldNameF_fuel`). -/
def scanFieldNameF : Nat → List Char → Except PyError (List Char × Char × List Char)
  | 0, _ => .error (.valueError "model recursion fuel exhausted (unreachable)")
  | _ + 1, [] => .error (.valueError "expected \x27\x7d\x27 before end of string")
  | fuel + 1, c :: rest =>
    if c = '{' then .error (.valueError "unexpected \x27\x7b\x27 in field name")
    else if c = '[' then
      match scanFieldNameF fuel (dropToRBracket rest).2 with
      | .ok (name, t, r) => .ok (c :: (dropToRBracket rest).1 ++ name, t, r)
      | .error e => .error e
    else if c = '}' ∨ c = ':' ∨ c = '!' then .ok ([], c, rest)
    else
      match scanFieldNameF fuel rest with
      | .ok (name, t, r) => .ok (c :: name, t, r)
      | .error e => .error e

/-- CPython field-name scan at its canonical fuel. -/
def scanFieldName (s : List Char) : Except PyError (List Char × Char × List Char) :=
  scanFieldNameF (s.length + 1) s

theorem scanFieldNameF_length (fuel : Nat) :
    ∀ s name t r, scanFieldNameF fuel s = .ok (name, t, r) →
      r.length + 1 ≤ s.length := by
  induction fuel with
  | zero => intro s name t r h; simp [scanFieldNameF] at h
  | succ fuel ih =>
    intro s name t r h
    cases s with
    | nil => simp [scanFieldNameF] at h
    | cons c rest =>
      rw [scanFieldNameF] at h
      split at h
      · cases h
      · split at h
        · split at h
          · rename_i name0 t0 r0 heq
            have h1 := ih (dropToRBracket rest).2 name0 t0 r0 heq
            have h2 : (dropToRBracket rest).2.length ≤ rest.length :=
              dropToRBracket_length rest
            simp only [Except.ok.injEq, Prod.mk.injEq] at h
            obtain ⟨-, -, hr⟩ := h
            subst hr
            simp only [List.length_cons]
            omega
          · cases h
        · split at h
          · simp only [Except.ok.injEq, Prod.mk.injEq] at h
            obtain ⟨-, -, hr⟩ := h
            subst hr
            simp
          · split at h
            · rename_i name0 t0 r0 heq
              have h1 := ih rest name0 t0 r0 heq
              simp only [Except.ok.injEq, Prod.mk.injEq] at h
              obtain ⟨-, -, hr⟩ := h
              subst hr
              simp only [List.length_cons]
              omega
            · cases h

theorem scanFieldNameF_fuel (f1 : Nat) :
    ∀ f2 s, s.length < f1 → s.length < f2 →
      scanFieldNameF f1 s = scanFieldNameF f2 s := by
  induction f1 with
  | zero => intro f2 s h1; omega
  | succ f1 ih =>
    intro f2 s h1 h2
    cases f2 with
    | zero => omega
    | succ f2 =>
      cases s with
      | nil => rfl
      | cons c rest =>
        simp only [List.length_cons] at h1 h2
        rw [scanFieldNameF, scanFieldNameF]
        have hdrop : (dropToRBracket rest).2.length ≤ rest.length :=
          dropToRBracket_length rest
        rw [ih f2 (dropToRBracket rest).2 (by omega) (by omega)]
        rw [ih f2 rest (by omega) (by omega)]


theorem scanFieldName_length (s : List Char) (name : List Char) (t : Char)
    (r : List Char) (h : scanFieldName s = .ok (name, t, r)) :
    r.length + 1 ≤ s.length :=
  scanFieldNameF_length (s.length + 1) s name t r h

/-- Scan a format spec, counting nested braces, up to the closing `\x7d`
that brings the count to zero (CPython `parse_field`, spec phase).
`count` starts at 1. -/
def scanFormatSpec : List Char → Nat → Except PyError (List Char × List Char)
  | [], _ => .error (.valueError "unmatched \x27\x7b\x27 in format spec")
  | c :: rest, count =>
    if c = '{' then
      match scanFormatSpec rest (count + 1) with
      | .ok (sp, r) => .ok (c :: sp, r)
      | .error e => .error e
    else if c = '}' then
      if count = 1 then .ok ([], rest)
      else
        match scanFormatSpec rest (count - 1) with
        | .ok (sp, r) => .ok (c :: sp, r)
        | .error e => .error e
    else
      match scanFormatSpec rest count with
      | .ok (sp, r) => .ok (c :: sp, r)
      | .error e => .error e

theorem scanFormatSpec_length (s : List Char) (count : Nat) (sp r : List Char)
    (h : scanFormatSpec s count = .ok (sp, r)) :
    sp.length + r.length + 1 ≤ s.length := by
  induction s generalizing count sp r with
  | nil => simp [scanFormatSpec] at h
  | cons c rest ih =>
    rw [scanFormatSpec] at h
    split at h
    · cases hrec : scanFormatSpec rest (count + 1) with
      | ok v =>
        obtain ⟨sp2, r2⟩ := v
        rw [hrec] at h
        simp only [Except.ok.injEq, Prod.mk.injEq] at h
        obtain ⟨hsp, hr⟩ := h
        subst hsp
        subst hr
        have := ih (count + 1) sp2 r2 hrec
        simp only [List.length_cons]
        omega
      | error e => rw [hrec] at h; cases h
    · split at h
      · split at h
        · cases h
          simp
        · cases hrec : scanFormatSpec rest (count - 1) with
          | ok v =>
            obtain ⟨sp2, r2⟩ := v
            rw [hrec] at h
            simp only [Except.ok.injEq, Prod.mk.injEq] at h
            obtain ⟨hsp, hr⟩ := h
            subst hsp
            subst hr
            have := ih (count - 1) sp2 r2 hrec
            simp only [List.length_cons]
            omega
          | error e => rw [hrec] at h; cases h
      · cases hrec : scanFormatSpec rest count with
        | ok v =>
          obtain ⟨sp2, r2⟩ := v
          rw [hrec] at h
          simp only [Except.ok.injEq, Prod.mk.injEq] at h
          obtain ⟨hsp, hr⟩ := h
          subst hsp
          subst hr
          have := ih count sp2 r2 hrec
          simp only [List.length_cons]
          omega
        | error e => rw [hrec] at h; cases h

/-- CPython `parse_field`: given the input just after an opening `\x7b`,
return `(field_name, conversion, format_spec, rest)`.  A field closed
directly by `\x7d` has format spec `""` and no conversion, exactly as
`Formatter.parse` reports it. -/
def parse_field (s : List Char) :
    Except PyError (String × Option String × Option String × List Char) :=
  match scanFieldName s with
  | .error e => .error e
  | .ok (name, t, rest) =>
    if t = '}' then
      .ok (⟨name⟩, none, some "", rest)
    else if t = '!' then
      match rest with
      | [] => .error (.valueError "end of string while looking for conversion specifier")
      | conv :: rest2 =>
        match rest2 with
        | [] => .error (.valueError "unmatched \x27\x7b\x27 in format spec")
        | c2 :: rest3 =>
          if c2 = '}' then
            .ok (⟨name⟩, some (String.singleton conv), some "", rest3)
          else if c2 = ':' then
            match scanFormatSpec rest3 1 with
            | .ok (spec, rest4) =>
              .ok (⟨name⟩, some (String.singleton conv), some ⟨spec⟩, rest4)
            | .error e => .error e
          else
            .error (.valueError "expected \x27:\x27 after conversion specifier")
    else
      match scanFormatSpec rest 1 with
      | .ok (spec, rest4) => .ok (⟨name⟩, none, some ⟨spec⟩, rest4)
      | .error e => .error e

theorem parse_field_length (s : List Char) (name : String)
    (conv spec : Option String) (rest : List Char)
    (h : parse_field s = .ok (name, conv, spec, rest)) :
    rest.length + 1 ≤ s.length ∧
      ∀ sp, spec = some sp → sp.length + rest.length + 1 ≤ s.length := by
  rw [parse_field] at h
  split at h
  · cases h
  · rename_i name0 t0 rest0 heq
    have hlen0 := scanFieldName_length s name0 t0 rest0 heq
    split at h
    · simp only [Except.ok.injEq, Prod.mk.injEq] at h
      obtain ⟨-, -, hspec, hrest⟩ := h
      subst hspec
      subst hrest
      refine ⟨hlen0, ?_⟩
      intro sp hsp
      cases hsp
      simpa using hlen0
    · split at h
      · split at h
        · cases h
        · split at h
          · cases h
          · rename_i conv0 rest2 c2 rest3
            simp only [List.length_cons] at hlen0
            split at h
            · simp only [Except.ok.injEq, Prod.mk.injEq] at h
              obtain ⟨-, -, hspec, hrest⟩ := h
              subst hspec
              subst hrest
              refine ⟨by omega, ?_⟩
              intro sp hsp
              cases hsp
              simp only [String.length, List.length_nil]
              omega
            · split at h
              · split at h
                · rename_i spec0 rest4 heq4
                  have hlen4 := scanFormatSpec_length rest3 1 spec0 rest4 heq4
                  simp only [Except.ok.injEq, Prod.mk.injEq] at h
                  obtain ⟨-, -, hspec, hrest⟩ := h
                  subst hspec
                  subst hrest
                  refine ⟨by omega, ?_⟩
                  intro sp hsp
                  cases hsp
                  simp only [String.length]
                  omega
                · cases h
              · cases h
      · split at h
        · rename_i spec0 rest4 heq4
          have hlen4 := scanFormatSpec_length rest0 1 spec0 rest4 heq4
          simp only [Except.ok.injEq, Prod.mk.injEq] at h
          obtain ⟨-, -, hspec, hrest⟩ := h
          subst hspec
          subst hrest
          refine ⟨by omega, ?_⟩
          intro sp hsp
          cases hsp
          simp only [String.length]
          omega
        · cases h

/-- Brace handling of `MarkupIterator_next` once the literal text `lit`
has been scanned off and `rest` is the remaining input (empty, or starting
at the first `\x7b` or `\x7d`). -/
def nextChunkAux (lit : List Char) (rest : List Char) :
    Except PyError (Option (FormatChunk × List Char)) :=
  match rest with
  | [] =>
    .ok (some ({ literal_text := ⟨lit⟩, field_name := none,
                 format_spec := none, conversion := none }, []))
  | b :: rest1 =>
    match rest1 with
    | [] =>
      if b = '}' then .error (.valueError "Single \x27\x7d\x27 encountered in format string")
      else .error (.valueError "Single \x27\x7b\x27 encountered in format string")
    | b2 :: rest2 =>
      if b2 = b then
        .ok (some ({ literal_text := ⟨lit ++ [b]⟩, field_name := none,
                     format_spec := none, conversion := none }, rest2))
      else if b = '}' then
        .error (.valueError "Single \x27\x7d\x27 encountered in format string")
      else
        match parse_field rest1 with
        | .ok (name, conv, spec, rest3) =>
          .ok (some ({ literal_text := ⟨lit⟩, field_name := some name,
                       format_spec := spec, conversion := conv }, rest3))
        | .error e => .error e

/-- One step of `string.Formatter.parse` (CPython `MarkupIterator_next`):
returns `none` at the end of the input, otherwise the next
`(literal_text, field_name, format_spec, conversion)` tuple together with
the remaining input.  Doubled braces are escapes belonging to the literal
text; a lone `\x7b` or `\x7d` is an error. -/
def nextChunk (s : List Char) :
    Except PyError (Option (FormatChunk × List Char)) :=
  if s.isEmpty then .ok none
  else nextChunkAux (scanLiteral s).1 (scanLiteral s).2

theorem nextChunkAux_length (lit rest : List Char) (ch : FormatChunk)
    (out : List Char) (h : nextChunkAux lit rest = .ok (some (ch, out))) :
    out.length ≤ rest.length ∧ (rest ≠ [] → out.length + 2 ≤ rest.length) ∧
      ∀ sp, ch.format_spec = some sp →
        sp.length + out.length + 2 ≤ rest.length := by
  rw [nextChunkAux.eq_def] at h
  split at h
  · simp only [Except.ok.injEq, Option.some.injEq, Prod.mk.injEq] at h
    obtain ⟨hch, hout⟩ := h
    subst hout
    refine ⟨by simp, by simp, ?_⟩
    intro sp hsp
    rw [← hch] at hsp
    simp at hsp
  · rename_i b rest1
    split at h
    · split at h <;> cases h
    · rename_i b2 rest2
      split at h
      · simp only [Except.ok.injEq, Option.some.injEq, Prod.mk.injEq] at h
        obtain ⟨hch, hout⟩ := h
        subst hout
        refine ⟨by simp only [List.length_cons]; omega,
          fun _ => by simp only [List.length_cons]; omega, ?_⟩
        intro sp hsp
        rw [← hch] at hsp
        simp at hsp
      · split at h
        · cases h
        · split at h
          · rename_i name0 conv0 spec0 rest3 heq
            have hlen := parse_field_length (b2 :: rest2) name0 conv0 spec0
              rest3 heq
            simp only [Except.ok.injEq, Option.some.injEq, Prod.mk.injEq] at h
            obtain ⟨hch, hout⟩ := h
            subst hout
            simp only [List.length_cons] at hlen ⊢
            refine ⟨by omega, fun _ => by omega, ?_⟩
            intro sp hsp
            rw [← hch] at hsp
            simp only at hsp
            have := hlen.2 sp hsp
            omega
          · cases h

theorem nextChunk_length (s : List Char) (ch : FormatChunk) (rest : List Char)
    (h : nextChunk s = .ok (some (ch, rest))) :
    rest.length < s.length ∧
      ∀ sp, ch.format_spec = some sp → sp.length + rest.length + 2 ≤ s.length := by
  rw [nextChunk] at h
  split at h
  · cases h
  · rename_i hne
    have hsl := scanLiteral_append s
    have haux := nextChunkAux_length (scanLiteral s).1 (scanLiteral s).2 ch rest h
    obtain ⟨h1, h2, h3⟩ := haux
    have hslen : (scanLiteral s).1.length + (scanLiteral s).2.length = s.length := by
      simpa using congrArg List.length hsl
    have hspos : 0 < s.length := by
      cases s
      · simp at hne
      · simp
    constructor
    · rcases Decidable.em ((scanLiteral s).2 = []) with hrt | hrt
      · rw [hrt] at h1
        simp only [List.length_nil, Nat.le_zero] at h1
        omega
      · have := h2 hrt
        omega
    · intro sp hsp
      have := h3 sp hsp
      omega

/-- Full result of `list(Formatter().parse(s))`, structurally recursive on
a fuel bound: all chunks, or the error raised during iteration.  Every
step consumes at least one character (`nextChunk_length`), so the
canonical fuel `s.length + 1` used by `parseChunks` never reaches the
exhaustion branch. -/
def parseChunksF : Nat → List Char → Except PyError (List FormatChunk)
  | 0, _ => .error (.valueError "model recursion fuel exhausted (unreachable)")
  | fuel + 1, s =>
    match nextChunk s with
    | .error e => .error e
    | .ok none => .ok []
    | .ok (some (ch, rest)) =>
      match parseChunksF fuel rest with
      | .ok chunks => .ok (ch :: chunks)
      | .error e => .error e

/-- Full parse `list(Formatter().parse(s))` at the canonical fuel. -/
def parseChunks (s : List Char) : Except PyError (List FormatChunk) :=
  parseChunksF (s.length + 1) s

/-- The class constant `MigrationConfig.MIGRATION_FORMAT_STRING_FIELDS`
(a Python set, modelled as a duplicate-free list). -/
def MIGRATION_FORMAT_STRING_FIELDS : List String :=
  ["desc", "full_desc", "next_version", "date", "keyspace"]

/-- Python `field_name.split(\x27.\x27)[0]`: the characters before the first
dot. -/
def splitDotHead (f : String) : String :=
  ⟨f.data.takeWhile (fun c => c ≠ '.')⟩

/-- The loop of `MigrationConfig.validate_migration_format_string`
(structurally recursive on the same fuel bound as `parseChunksF`):
iterate `Formatter.parse` lazily; on each tuple evaluate
`field_name.split(\x27.\x27)[0]` and require membership in the field set.
For a literal-only tuple `field_name` is `None`, so `None.split` raises
`AttributeError` (Python 3: unguarded in the source, config.py line 147). -/
def validateFormatLoopF : Nat → List Char → Except PyError Unit
  | 0, _ => .error (.valueError "model recursion fuel exhausted (unreachable)")
  | fuel + 1, s =>
    match nextChunk s with
    | .error e => .error e
    | .ok none => .ok ()
    | .ok (some (ch, rest)) =>
      match ch.field_name with
      | none => .error (.attributeError "\x27NoneType\x27 object has no attribute \x27split\x27")
      | some f =>
        if MIGRATION_FORMAT_STRING_FIELDS.contains (splitDotHead f) then
          validateFormatLoopF fuel rest
        else
          .error (.valueError ("Unknown format field: " ++ splitDotHead f))

/-- Models `MigrationConfig.validate_migration_format_string(fmt)`. -/
def validate_migration_format_string (fmt : String) : Except PyError Unit :=
  validateFormatLoopF (fmt.data.length + 1) fmt.data

/-- Alignment characters of the format-spec mini-language. -/
def isAlignChar (c : Char) : Bool := c = '<' || c = '>' || c = '=' || c = '^'

/-- Sign characters of the format-spec mini-language. -/
def isSignChar (c : Char) : Bool := c = '+' || c = '-' || c = ' '

/-- Longest prefix of ASCII decimal digits. -/
def spanDigits : List Char → List Char × List Char
  | [] => ([], [])
  | c :: rest =>
    if c.isDigit then
      let p := spanDigits rest
      (c :: p.1, p.2)
    else ([], c :: rest)

/-- Numeric value of a digit list. -/
def digitsToNat (ds : List Char) : Nat :=
  ds.foldl (fun a c => a * 10 + (c.toNat - 48)) 0

/-- Hexadecimal digit (lower case). -/
def hexDigit (n : Nat) : Char :=
  if n < 10 then Char.ofNat (48 + n) else Char.ofNat (87 + n)

/-- Escaping of one character inside a Python `repr` string with quote
character `q` (ASCII escapes; printable characters kept). -/
def escapeCharCommon (q : Char) (c : Char) : List Char :=
  if c = '\\' then ['\\', '\\']
  else if c = q then ['\\', q]
  else if c = '\n' then ['\\', 'n']
  else if c = '\r' then ['\\', 'r']
  else if c = '\t' then ['\\', 't']
  else if c.toNat < 32 || c.toNat = 127 then
    ['\\', 'x', hexDigit (c.toNat / 16), hexDigit (c.toNat % 16)]
  else [c]

/-- Quote character chosen by Python `repr` for a string: single quote
unless the string contains a single quote but no double quote. -/
def pyReprQuote (s : String) : Char :=
  if s.data.contains (Char.ofNat 39) && !(s.data.contains '"') then '"'
  else Char.ofNat 39

/-- Python `repr` of a string (exact for ASCII content; printability of
non-ASCII characters is approximated as printable). -/
def pyRepr (s : String) : String :=
  let q := pyReprQuote s
  ⟨q :: s.data.foldr (fun c acc => escapeCharCommon q c ++ acc) [q]⟩

/-- Escaping of one character inside Python `ascii`. -/
def escapeCharAscii (q : Char) (c : Char) : List Char :=
  if c.toNat < 128 then escapeCharCommon q c
  else if c.toNat < 256 then
    ['\\', 'x', hexDigit (c.toNat / 16), hexDigit (c.toNat % 16)]
  else if c.toNat < 65536 then
    ['\\', 'u', hexDigit (c.toNat / 4096 % 16), hexDigit (c.toNat / 256 % 16),
     hexDigit (c.toNat / 16 % 16), hexDigit (c.toNat % 16)]
  else
    ['\\', 'U', hexDigit (c.toNat / 268435456 % 16),
     hexDigit (c.toNat / 16777216 % 16), hexDigit (c.toNat / 1048576 % 16),
     hexDigit (c.toNat / 65536 % 16), hexDigit (c.toNat / 4096 % 16),
     hexDigit (c.toNat / 256 % 16), hexDigit (c.toNat / 16 % 16),
     hexDigit (c.toNat % 16)]

/-- Python `ascii` of a string. -/
def pyAscii (s : String) : String :=
  let q := pyReprQuote s
  ⟨q :: s.data.foldr (fun c acc => escapeCharAscii q c ++ acc) [q]⟩

/-- CPython `Formatter.convert_field`. -/
def convert_field (obj : String) : Option String → Except PyError String
  | none => .ok obj
  | some c =>
    if c = "s" then .ok obj
    else if c = "r" then .ok (pyRepr obj)
    else if c = "a" then .ok (pyAscii obj)
    else .error (.valueError ("Unknown conversion specifier " ++ c))

/-- Python `str.__format__` (CPython `formatter_unicode.c`) for a string
receiver: parse the format-spec mini-language
`[[fill]align][sign][z][#][0][width][grouping][.precision][type]`,
validate it against the string type, then truncate to the precision and
pad to the width. -/
def py_str_format (s : String) (spec : String) : Except PyError String :=
  let cs := spec.data
  let fillAlign : Option Char × Option Char × List Char :=
    match cs with
    | a :: b :: r =>
      if isAlignChar b then (some a, some b, r)
      else if isAlignChar a then (none, some a, b :: r)
      else (none, none, cs)
    | [a] => if isAlignChar a then (none, some a, []) else (none, none, cs)
    | [] => (none, none, cs)
  match fillAlign with
  | (fill0, align, rest1) =>
    let signStep : Option Char × List Char :=
      match rest1 with
      | c :: r => if isSignChar c then (some c, r) else (none, rest1)
      | [] => (none, rest1)
    match signStep with
    | (sign, rest2) =>
      let zStep : Bool × List Char :=
        match rest2 with
        | c :: r => if c = 'z' then (true, r) else (false, rest2)
        | [] => (false, rest2)
      match zStep with
      | (zf, rest3) =>
        let altStep : Bool × List Char :=
          match rest3 with
          | c :: r => if c = '#' then (true, r) else (false, rest3)
          | [] => (false, rest3)
        match altStep with
        | (alt, rest4) =>
          let zeroStep : Option Char × List Char :=
            match rest4 with
            | c :: r => if c = '0' && fill0.isNone then (some '0', r) else (fill0, rest4)
            | [] => (fill0, rest4)
          match zeroStep with
          | (fill, rest5) =>
            match spanDigits rest5 with
            | (wds, rest6) =>
              let width := if wds.isEmpty then none else some (digitsToNat wds)
              let groupingStep : Except PyError (Option Char × List Char) :=
                match rest6 with
                | ',' :: '_' :: _ =>
                  .error (.valueError "Cannot specify both \x27,\x27 and \x27_\x27.")
                | '_' :: ',' :: _ =>
                  .error (.valueError "Cannot specify both \x27,\x27 and \x27_\x27.")
                | ',' :: r => .ok (some ',', r)
                | '_' :: r => .ok (some '_', r)
                | _ => .ok (none, rest6)
              match groupingStep with
              | .error e => .error e
              | .ok (grouping, rest7) =>
                let precStep : Except PyError (Option Nat × List Char) :=
                  match rest7 with
                  | '.' :: r =>
                    match spanDigits r with
                    | (pds, r2) =>
                      if pds.isEmpty then
                        .error (.valueError "Format specifier missing precision")
                      else .ok (some (digitsToNat pds), r2)
                  | _ => .ok (none, rest7)
                match precStep with
                | .error e => .error e
                | .ok (precision, rest8) =>
                  let typeStep : Except PyError (Option Char) :=
                    match rest8 with
                    | [] => .ok none
                    | [t] => .ok (some t)
                    | _ => .error (.valueError
                        ("Invalid format specifier \x27" ++ spec ++
                         "\x27 for object of type \x27str\x27"))
                  match typeStep with
                  | .error e => .error e
                  | .ok ftype =>
                    let resolvedType := ftype.getD 's'
                    let groupCheck : Except PyError Unit :=
                      match grouping with
                      | none => .ok ()
                      | some g =>
                        let allowed : List Char :=
                          if g = ',' then ['d', 'e', 'f', 'g', 'E', 'G', '%', 'F']
                          else ['b', 'o', 'x', 'X', 'd', 'e', 'f', 'g', 'E', 'G', '%', 'F']
                        if allowed.contains resolvedType then .ok ()
                        else .error (.valueError
                          ("Cannot specify \x27" ++ String.singleton g ++
                           "\x27 with \x27" ++ String.singleton resolvedType ++ "\x27."))
                    match groupCheck with
                    | .error e => .error e
                    | .ok _ =>
                      if resolvedType ≠ 's' then
                        .error (.valueError
                          ("Unknown format code \x27" ++ String.singleton resolvedType ++
                           "\x27 for object of type \x27str\x27"))
                      else if sign.isSome then
                        .error (.valueError "Sign not allowed in string format specifier")
                      else if zf then
                        .error (.valueError
                          "Negative zero coercion (z) not allowed in string format specifier")
                      else if alt then
                        .error (.valueError
                          "Alternate form (#) not allowed in string format specifier")
                      else if align = some '=' then
                        .error (.valueError
                          "\x27=\x27 alignment not allowed in string format specifier")
                      else
                        let truncated : List Char :=
                          match precision with
                          | some p => s.data.take p
                          | none => s.data
                        let w := width.getD 0
                        let f := fill.getD ' '
                        if w ≤ truncated.length then .ok ⟨truncated⟩
                        else
                          let pad := w - truncated.length
                          if align = some '>' then
                            .ok ⟨List.replicate pad f ++ truncated⟩
                          else if align = some '^' then
                            .ok ⟨List.replicate (pad / 2) f ++ truncated ++
                                 List.replicate (pad - pad / 2) f⟩
                          else .ok ⟨truncated ++ List.replicate pad f⟩

/-- First dotted/indexed component of a replacement-field name
(CPython `formatter_field_name_split`): the name up to the first `.` or
`[`, and whether any accessor follows. -/
def fieldFirst : List Char → List Char × Bool
  | [] => ([], false)
  | c :: rest =>
    if c = '.' ∨ c = '[' then ([], true)
    else
      let p := fieldFirst rest
      (c :: p.1, p.2)

/-- CPython `Formatter.get_field`/`get_value`: an integer first component
indexes `args`, otherwise it is a key into `kwargs`.  Trailing attribute
or index accessors are outside this model: substituted values are plain
strings here, while CPython would resolve real attributes on them; no
template of the migration module uses accessors, and the validator only
ever splits off the leading component. -/
def get_field (field : String) (args : List String)
    (kwargs : List (String × String)) : Except PyError String :=
  match fieldFirst field.data with
  | (first, hasRest) =>
    match (if first ≠ [] && first.all Char.isDigit then
             match args.get? (digitsToNat first) with
             | some v => .ok v
             | none => .error (.indexError "list index out of range")
           else
             match kwargs.lookup ⟨first⟩ with
             | some v => .ok v
             | none => .error (.keyError ⟨first⟩) : Except PyError String) with
    | .error e => .error e
    | .ok v =>
      if hasRest then
        .error (.attributeError
          "attribute and index accesses on format fields are not modelled")
      else .ok v

/-- The automatic-field-numbering block at the top of the field handling
in `_vformat`: an empty field name consumes the next automatic index; an
all-digit field name switches to manual numbering; mixing the two raises
`ValueError`. -/
def autoNumberStep (fname : String) (autoIdx : Option Nat) :
    Except PyError (String × Option Nat) :=
  if fname = "" then
    match autoIdx with
    | none => .error (.valueError
        "cannot switch from manual field specification to automatic field numbering")
    | some n => .ok (toString n, some (n + 1))
  else if fname.data ≠ [] ∧ fname.data.all Char.isDigit then
    match autoIdx with
    | some n =>
      if n ≠ 0 then
        .error (.valueError
          "cannot switch from manual field specification to automatic field numbering")
      else .ok (fname, none)
    | none => .ok (fname, none)
  else .ok (fname, autoIdx)

/-- The loop over `Formatter.parse` tuples inside `_vformat`
(structurally recursive on the same fuel bound as `parseChunksF`; the
expansion of a format spec re-enters `_vformat` one recursion level down,
passed in as `recurse`): literal text is appended; a replacement field is
resolved via automatic numbering, `get_field`, `convert_field`, recursive
expansion of its format spec, and `format_field` (= `format(obj, spec)`).
`autoIdx` models `auto_arg_index`, with `none` for the Python `False`. -/
def vfLoopF (args : List String) (kwargs : List (String × String))
    (recurse : String → Option Nat → Except PyError (String × Option Nat)) :
    Nat → List Char → Option Nat → Except PyError (String × Option Nat)
  | 0, _, _ => .error (.valueError "model recursion fuel exhausted (unreachable)")
  | fuel + 1, s, autoIdx =>
    match nextChunk s with
    | .error e => .error e
    | .ok none => .ok ("", autoIdx)
    | .ok (some (ch, rest)) =>
      match ch.field_name, ch.format_spec with
      | some fname, some spec =>
        match autoNumberStep fname autoIdx with
        | .error e => .error e
        | .ok (fname2, auto1) =>
          match get_field fname2 args kwargs with
          | .error e => .error e
          | .ok obj0 =>
            match convert_field obj0 ch.conversion with
            | .error e => .error e
            | .ok obj1 =>
              match recurse spec auto1 with
              | .error e => .error e
              | .ok (specExp, auto2) =>
                match py_str_format obj1 specExp with
                | .error e => .error e
                | .ok rendered =>
                  match vfLoopF args kwargs recurse fuel rest auto2 with
                  | .error e => .error e
                  | .ok (tail, auto3) =>
                    .ok (ch.literal_text ++ rendered ++ tail, auto3)
      | _, _ =>
        match vfLoopF args kwargs recurse fuel rest autoIdx with
        | .error e => .error e
        | .ok (tail, auto3) => .ok (ch.literal_text ++ tail, auto3)

/-- CPython `Formatter._vformat`.  The first `Nat` is
`recursion_depth + 1`, so the Python guard `recursion_depth < 0` is the
zero case here; the top-level `vformat` entry point calls with `3`
(Python depth 2), and each format-spec expansion descends one level. -/
def pyVFormat (args : List String) (kwargs : List (String × String)) :
    Nat → String → Option Nat → Except PyError (String × Option Nat)
  | 0, _, _ => .error (.valueError "Max string recursion exceeded")
  | rdp1 + 1, fmt, autoIdx =>
    vfLoopF args kwargs (fun sp a => pyVFormat args kwargs rdp1 sp a)
      (fmt.data.length + 1) fmt.data autoIdx

/-- CPython `Formatter.vformat(format_string, args, kwargs)`: `_vformat`
at recursion depth 2 with automatic numbering starting at 0
(`check_unused_args` of the base `Formatter` is a no-op). -/
def formatter_vformat (fmt : String) (args : List String)
    (kwargs : List (String × String)) : Except PyError String :=
  match pyVFormat args kwargs 3 fmt (some 0) with
  | .ok (res, _) => .ok res
  | .error e => .error e

/-- The module constant `DEFAULT_NEW_MIGRATION_TEXT` (triple-quoted string
after `.lstrip()`; note the trailing literal text `*/` and newline). -/
def DEFAULT_NEW_MIGRATION_TEXT : String :=
  "/* Cassandra migration for keyspace \x7bkeyspace\x7d.\n   Version \x7bnext_version\x7d - \x7bdate\x7d\n\n   \x7bfull_desc\x7d */\n"

/-- The class constant `MigrationConfig.DEFAULT_PROFILES`.  The built-in
`dev` profile carries only a `replication` entry (no `durable_writes`). -/
def DEFAULT_PROFILES : List (String × Value) :=
  [("dev", .dict [("replication",
      .dict [("class", .str "SimpleStrategy"), ("replication_factor", .int 1)])])]

/-- The `default=_EMPTY_DEFAULT` parameter of `extract_config_entry`:
`emptyDefault` is the sentinel object (no default), `withDefault v` a
caller-supplied default value. -/
inductive DefaultArg where
  | emptyDefault
  | withDefault (v : Value)

/-- Python 2 `re.match(r"^[a-zA-Z][a-zA-Z0-9_]*$", value)` core character
classes. -/
def isAsciiLetter (c : Char) : Bool :=
  ('a' ≤ c && c ≤ 'z') || ('A' ≤ c && c ≤ 'Z')

/-- Characters matched by `[a-zA-Z0-9_]`. -/
def isIdentTail (c : Char) : Bool :=
  isAsciiLetter c || ('0' ≤ c && c ≤ '9') || c = '_'

/-- Match of the bare regular expression `[a-zA-Z][a-zA-Z0-9_]*` against a
whole character list. -/
def matchesIdentCore : List Char → Bool
  | [] => false
  | c :: rest => isAsciiLetter c && rest.all isIdentTail

/-- CPython `re.match(r"^[a-zA-Z][a-zA-Z0-9_]*$", s)` as a Boolean: `$`
matches at the end of the string or just before a newline at the end of
the string, so a single trailing newline is also accepted. -/
def reMatchIdentifier (s : String) : Bool :=
  matchesIdentCore s.data ||
    ((s.data.getLast? == some '\n') && matchesIdentCore s.data.dropLast)

/-- Models `MigrationConfig.validate_identifier(value)` for a string value. -/
def validate_identifier (value : String) : Except PyError Unit :=
  if reMatchIdentifier value then .ok ()
  else .error (.valueError
    "Identifiers must consist of a letter followed by letters, numbers or underscores")

/-- The method `validate_identifier` as the `validate` callable handed to
`extract_config_entry` (via `re.match`, a non-string argument would raise
`TypeError`; the call sites always pair it with `type_=unicode`, so only
strings reach it). -/
def identifierValidator : Value → Except PyError Unit
  | .str s => validate_identifier s
  | _ => .error (.typeError "expected string or bytes-like object")

/-- The method `validate_migration_format_string` as the `validate` callable handed
to `extract_config_entry`. -/
def formatStringValidator : Value → Except PyError Unit
  | .str s => validate_migration_format_string s
  | _ => .error (.typeError "descriptor \x27parse\x27 requires a \x27str\x27 object")

/-- The lookup-and-default part of `extract_config_entry`
(`value = data.get(key, None)` followed by the `None` check): an absent
key and an explicit null are both `None`; without a default this is the
mandatory-key `ConfigValidationError`, with a default the default value is
used. -/
def resolve_entry (data : Value) (key : String) (default : DefaultArg)
    (key_str : String) : Except PyError Value :=
  match py_dict_get data key with
  | .error e => .error e
  | .ok got =>
    match got with
    | .null =>
      match default with
      | .emptyDefault => .error (.configValidationError key_str .null "Key is mandatory")
      | .withDefault v => .ok v
    | v => .ok v

/-- The `if callable(validate)` block of `extract_config_entry`: the
validator is invoked; a `ValueError` it raises is caught, but the handler
evaluates `e.message`, which does not exist on Python 3 exceptions, so
the intended re-raise as `ConfigValidationError` is unreachable and an
`AttributeError` escapes instead (config.py line 125). -/
def check_entry_validate (value : Value)
    (validate : Option (Value → Except PyError Unit)) : Except PyError Value :=
  match validate with
  | some f =>
    match f value with
    | .ok _ => .ok value
    | .error (.valueError _) =>
      .error (.attributeError "\x27ValueError\x27 object has no attribute \x27message\x27")
    | .error e => .error e
  | none => .ok value

/-- The checking part of `extract_config_entry`: the `isinstance` test,
then the validator call. -/
def check_entry (key_str : String) (value : Value)
    (validate : Option (Value → Except PyError Unit)) (type_ : Option PyType) :
    Except PyError Value :=
  match type_ with
  | some t =>
    if isInstance value t then
      check_entry_validate value validate
    else
      .error (.configValidationError key_str value
        ("Value has wrong type " ++ type_name value ++ ", expected " ++ py_type_name t))
  | none => check_entry_validate value validate

/-- Models `MigrationConfig.extract_config_entry(data, key, default, validate,
type_, prefix)` (the key-path prefix parameter is called `pfx` here). -/
def extract_config_entry (data : Value) (key : String) (default : DefaultArg)
    (validate : Option (Value → Except PyError Unit)) (type_ : Option PyType)
    (pfx : String) : Except PyError Value :=
  match resolve_entry data key default (pfx ++ key) with
  | .error e => .error e
  | .ok value => check_entry (pfx ++ key) value validate type_

/-- Models `MigrationConfig.extract_profile(data, name)`: a normalized profile
dict with exactly the keys `replication` and `durable_writes`. -/
def extract_profile (data : Value) (name : String) : Except PyError Value :=
  match extract_config_entry data "replication" .emptyDefault none (some .dict)
      ("profiles." ++ name ++ ".") with
  | .error e => .error e
  | .ok r =>
    match extract_config_entry data "durable_writes" (.withDefault (.bool true))
        none (some .bool) ("profiles." ++ name ++ ".") with
    | .error e => .error e
    | .ok d => .ok (.dict [("replication", r), ("durable_writes", d)])

/-- Python 3 set equality of `kwargs.keys()` with the field-name set. -/
def sameKeySet (ks : List String) (fields : List String) : Bool :=
  ks.all fields.contains && fields.all ks.contains

/-- Models `MigrationConfig.format_migration_string(fmt, **kwargs)`: reject a
key set differing from `MIGRATION_FORMAT_STRING_FIELDS` with a plain
`ValueError`, otherwise render with `Formatter.vformat(fmt, [], kwargs)`. -/
def format_migration_string (fmt : String) (kwargs : List (String × String)) :
    Except PyError String :=
  if sameKeySet (kwargs.map Prod.fst) MIGRATION_FORMAT_STRING_FIELDS then
    formatter_vformat fmt [] kwargs
  else
    .error (.valueError "Invalid keys for migration name format data")

/-- POSIX `os.path.join` for two components, as used for
`migrations_path`. -/
def os_path_join (a b : String) : String :=
  if b.data.head? = some '/' then b
  else if a.data = [] ∨ a.data.getLast? = some '/' then a ++ b
  else a ++ "/" ++ b

/-- The string content of a `Value` known to be a string (the call sites
only use it after an `isinstance(value, unicode)` check). -/
def asStr : Value → String
  | .str s => s
  | _ => ""

/-- The validated configuration object built by `MigrationConfig.__init__`
from a document and a base path.  The `migrations` field
(`Migration.glob_all(migrations_path, "*.cql")`) is an external
collaborator operating on the filesystem and is outside this embedding;
all other attributes are modelled. -/
structure MigrationConfigData where
  keyspace : String
  profiles : List (String × Value)
  migrations_path : String
  migrations_table : String
  new_migration_name : String
  new_migration_text : String

/-- Entry list of a value known to be a dict (`user_profiles.items()`;
the call site only uses it after an `isinstance(value, dict)` check). -/
def pyDictEntries : Value → List (String × Value)
  | .dict entries => entries
  | _ => []

/-- Models `MigrationConfig.__init__(data, base_path)`: the attribute
extractions in source order. -/
def construct (data : Value) (base_path : String) :
    Except PyError MigrationConfigData :=
  match extract_config_entry data "keyspace" .emptyDefault
      (some identifierValidator) (some .str) "" with
  | .error e => .error e
  | .ok keyspaceV =>
    match extract_config_entry data "profiles" (.withDefault (.dict []))
        none (some .dict) "" with
    | .error e => .error e
    | .ok user_profiles =>
      match (pyDictEntries user_profiles).mapM
          (fun (p : String × Value) =>
            (extract_profile p.2 p.1).map (fun v => (p.1, v))) with
      | .error e => .error e
      | .ok profItems =>
        match extract_config_entry data "migrations_path" .emptyDefault
            none (some .str) "" with
        | .error e => .error e
        | .ok mpV =>
          match extract_config_entry data "migrations_table"
              (.withDefault (.str "database_migrations"))
              (some identifierValidator) (some .str) "" with
          | .error e => .error e
          | .ok mtV =>
            match extract_config_entry data "new_migration_name"
                (.withDefault (.str "v\x7bnext_version\x7d_\x7bdesc\x7d"))
                (some formatStringValidator) (some .str) "" with
            | .error e => .error e
            | .ok nmnV =>
              match extract_config_entry data "new_migration_text"
                  (.withDefault (.str DEFAULT_NEW_MIGRATION_TEXT))
                  (some formatStringValidator) (some .str) "" with
              | .error e => .error e
              | .ok nmtV =>
                .ok { keyspace := asStr keyspaceV
                      profiles := dictUpdate DEFAULT_PROFILES profItems
                      migrations_path := os_path_join base_path (asStr mpV)
                      migrations_table := asStr mtV
                      new_migration_name := asStr nmnV
                      new_migration_text := asStr nmtV }

/-- Key list of a dict value (helper for stating profile shapes). -/
def dictKeys : Value → List String
  | .dict es => es.map Prod.fst
  | _ => []

/-- The top-level document keys the constructor reads. -/
def RECOGNIZED_TOP_LEVEL_KEYS : List String :=
  ["keyspace", "profiles", "migrations_path", "migrations_table",
   "new_migration_name", "new_migration_text"]

/-- The identifier language exactly as the specification words it: a
letter followed by letters, digits, or underscores, and nothing else
(stated independently of the implementation for comparison against
`validate_identifier`). -/
def specIdentifierPattern (s : String) : Bool :=
  match s.data with
  | [] => false
  | c :: rest => isAsciiLetter c && rest.all isIdentTail

/-- C1: the spec claims `validateTemplateFields` rejects exactly the
templates referencing a field outside the fixed set and accepts every
template whose references lie in the set, including templates with
literal text around the placeholders such as the built-in default text
template.  The code behaves as the spec says on the spec\x27s two
examples, but crashes with `AttributeError` on its own
`DEFAULT_NEW_MIGRATION_TEXT`: the trailing literal `*/` makes
`Formatter.parse` yield a tuple with `field_name = None`, and the
unguarded `field_name.split(\x27.\x27)` of config.py line 147 then
dereferences `None`.  The same crash hits every template with literal
text after its last placeholder, so the intended accept branch is
unreachable for them. -/
theorem c1_template_validator_crashes_on_default_text :
    validate_migration_format_string DEFAULT_NEW_MIGRATION_TEXT =
      .error (.attributeError "\x27NoneType\x27 object has no attribute \x27split\x27") ∧
    validate_migration_format_string "v\x7bnext_version\x7d_\x7bdesc\x7d" = .ok () ∧
    validate_migration_format_string "\x7bunknown_field\x7d" =
      .error (.valueError "Unknown format field: unknown_field") :=
  ⟨rfl, rfl, rfl⟩

/-- C5 counterexample: a field-set mismatch in `format_migration_string`
is raised as a plain `ValueError`, not as the `ConfigValidationError` the
claim asserts. -/
theorem c5_counterexample :
    format_migration_string "x" [] =
      .error (.valueError "Invalid keys for migration name format data") ∧
    ∀ k v msg, format_migration_string "x" [] ≠
      .error (.configValidationError k v msg) := by
  refine ⟨rfl, ?_⟩
  intro k v msg h
  have h0 : format_migration_string "x" [] =
      .error (.valueError "Invalid keys for migration name format data") := rfl
  rw [h0] at h
  simp at h

/-- C5 amended: for every template and field mapping whose key set is not
exactly `MIGRATION_FORMAT_STRING_FIELDS`, `format_migration_string` fails
before any rendering occurs, with the plain
`ValueError(\x27Invalid keys for migration name format data\x27)` of
config.py line 153 (not with `ConfigValidationError`, which only
`extract_config_entry` raises). -/
theorem c5_field_set_mismatch (fmt : String) (kwargs : List (String × String))
    (h : sameKeySet (kwargs.map Prod.fst) MIGRATION_FORMAT_STRING_FIELDS = false) :
    format_migration_string fmt kwargs =
      .error (.valueError "Invalid keys for migration name format data") := by
  simp only [format_migration_string, h, Bool.false_eq_true, if_false]

theorem c5_witness :
    format_migration_string "y" [("desc", "")] =
      .error (.valueError "Invalid keys for migration name format data") :=
  c5_field_set_mismatch "y" [("desc", "")] (by decide)

/-- C6: the claim says a validator failure raised as `ValueError` is
caught and re-raised as `ConfigValidationError` with the original message
attached, never escaping as any other error kind.  The handler of
config.py line 125 formats `e.message`, an attribute Python 3 exceptions
do not have, so the code instead raises `AttributeError` from inside the
handler; evaluated here at the failing input (an identifier-validator
rejection), both for `extract_config_entry` directly and for a document
whose `keyspace` violates the identifier pattern. -/
theorem c6_validator_rejection_raises_attribute_error :
    extract_config_entry (.dict [("keyspace", Value.str "9bad")]) "keyspace"
        .emptyDefault (some identifierValidator) (some .str) "" =
      .error (.attributeError "\x27ValueError\x27 object has no attribute \x27message\x27") ∧
    construct (.dict [("keyspace", Value.str "9bad"),
        ("migrations_path", Value.str "m")]) "/b" =
      .error (.attributeError "\x27ValueError\x27 object has no attribute \x27message\x27") :=
  ⟨rfl, rfl⟩

/-- C8 counterexample: `"abc\n"` contains a character outside the allowed
set, so the claim says `validate_identifier` rejects it; the code accepts
it, because Python\x27s `$` also matches just before a trailing newline. -/
theorem c8_counterexample :
    validate_identifier "abc\n" = .ok () ∧
    specIdentifierPattern "abc\n" = false :=
  ⟨rfl, rfl⟩

theorem specIdentifierPattern_eq_core (l : List Char) :
    specIdentifierPattern ⟨l⟩ = matchesIdentCore l := by
  cases l <;> rfl

/-- C8 amended: `validate_identifier` accepts a string iff it matches
`^[a-zA-Z][a-zA-Z0-9_]*$` under Python `re.match` semantics: the string
is a letter followed by letters, digits or underscores, optionally
followed by one trailing newline (which `$` also matches before). -/
theorem c8_identifier_iff (s : String) :
    validate_identifier s = .ok () ↔
      (specIdentifierPattern s = true ∨
        (s.data.getLast? = some '\n' ∧
          specIdentifierPattern ⟨s.data.dropLast⟩ = true)) := by
  obtain ⟨data⟩ := s
  have h1 : (validate_identifier ⟨data⟩ = .ok ()) ↔
      reMatchIdentifier ⟨data⟩ = true := by
    unfold validate_identifier
    split
    · rename_i hc; simp [hc]
    · rename_i hc; simp [hc]
  rw [h1]
  simp only [reMatchIdentifier, specIdentifierPattern_eq_core, Bool.or_eq_true,
    Bool.and_eq_true, beq_iff_eq]

/-- Resolution behavior on an absent or explicitly null key: the
mandatory error without a default, the default value with one. -/
theorem resolve_entry_null (m : List (String × Value)) (key : String)
    (d : DefaultArg) (ks : String)
    (h : m.lookup key = none ∨ m.lookup key = some .null) :
    resolve_entry (.dict m) key d ks =
      (match d with
       | .emptyDefault => .error (.configValidationError ks .null "Key is mandatory")
       | .withDefault v => .ok v) := by
  rcases h with h | h <;>
    simp only [resolve_entry, py_dict_get, h, Option.getD]

/-- C3: for every mapping, key and prefix, a key that is absent or
explicitly null resolves to `None`; without a default,
`extract_config_entry` fails with `ConfigValidationError` carrying the
full key path, a null rejected value and the mandatory-key message; with
a default, the default is used instead (the call proceeds to the type and
validator checks on the default, so no mandatory-key error is raised).
In particular a document missing `keyspace` fails construction this way
with key path `keyspace`. -/
theorem c3_mandatory_key :
    (∀ (m : List (String × Value)) key validate type_ pfx,
      (m.lookup key = none ∨ m.lookup key = some .null) →
      extract_config_entry (.dict m) key .emptyDefault validate type_ pfx =
        .error (.configValidationError (pfx ++ key) .null "Key is mandatory")) ∧
    (∀ (m : List (String × Value)) key d validate type_ pfx,
      (m.lookup key = none ∨ m.lookup key = some .null) →
      extract_config_entry (.dict m) key (.withDefault d) validate type_ pfx =
        check_entry (pfx ++ key) d validate type_) ∧
    (∀ (m : List (String × Value)) bp,
      (m.lookup "keyspace" = none ∨ m.lookup "keyspace" = some .null) →
      construct (.dict m) bp =
        .error (.configValidationError "keyspace" .null "Key is mandatory")) := by
  refine ⟨?_, ?_, ?_⟩
  · intro m key validate type_ pfx h
    simp only [extract_config_entry, resolve_entry_null m key .emptyDefault (pfx ++ key) h]
  · intro m key d validate type_ pfx h
    simp only [extract_config_entry, resolve_entry_null m key (.withDefault d) (pfx ++ key) h]
  · intro m bp h
    have h1 := resolve_entry_null m "keyspace" .emptyDefault "keyspace" h
    simp only [construct, extract_config_entry, String.append]
    rw [show ("" ++ "keyspace" : String) = "keyspace" from rfl]
    rw [h1]

theorem c3_witness :
    extract_config_entry (.dict []) "k" .emptyDefault none none "pre." =
      .error (.configValidationError "pre.k" .null "Key is mandatory") ∧
    extract_config_entry (.dict [("k", .null)]) "k"
        (.withDefault (.str "dflt")) none none "" = .ok (.str "dflt") ∧
    construct (.dict [("other", .int 3)]) "/b" =
      .error (.configValidationError "keyspace" .null "Key is mandatory") := by
  refine ⟨c3_mandatory_key.1 [] "k" none none "pre." (Or.inl rfl), ?_, ?_⟩
  · have h := c3_mandatory_key.2.1 [("k", .null)] "k" (.str "dflt") none none ""
      (Or.inr rfl)
    exact h.trans rfl
  · exact c3_mandatory_key.2.2 [("other", .int 3)] "/b" (Or.inl rfl)

/-- C4: whenever an expected type is given and the resolved value (the
stored value, or the default when the key resolved to null) is not an
instance of that type, `extract_config_entry` fails with
`ConfigValidationError` carrying the key path, the value, and the message
naming the actual and expected types; in particular a document whose
`keyspace` is an integer fails construction with the int-vs-str
mismatch. -/
theorem c4_type_mismatch :
    (∀ (data : Value) key d validate t pfx v,
      resolve_entry data key d (pfx ++ key) = .ok v →
      isInstance v t = false →
      extract_config_entry data key d validate (some t) pfx =
        .error (.configValidationError (pfx ++ key) v
          ("Value has wrong type " ++ type_name v ++ ", expected " ++ py_type_name t))) ∧
    (∀ (m : List (String × Value)) bp n,
      m.lookup "keyspace" = some (.int n) →
      construct (.dict m) bp =
        .error (.configValidationError "keyspace" (.int n)
          "Value has wrong type <class \x27int\x27>, expected <class \x27str\x27>")) := by
  constructor
  · intro data key d validate t pfx v hres hinst
    simp only [extract_config_entry, hres, check_entry, hinst,
      Bool.false_eq_true, if_false]
  · intro m bp n h
    have h1 : resolve_entry (.dict m) "keyspace" .emptyDefault "keyspace" =
        .ok (.int n) := by
      simp only [resolve_entry, py_dict_get, h, Option.getD]
    simp only [construct, extract_config_entry, String.append]
    rw [show ("" ++ "keyspace" : String) = "keyspace" from rfl]
    rw [h1]
    simp only [check_entry, isInstance, Bool.false_eq_true, if_false]
    rfl

theorem c4_witness :
    extract_config_entry (.dict [("p", .bool true)]) "p" .emptyDefault
        none (some .dict) "" =
      .error (.configValidationError "p" (.bool true)
        "Value has wrong type <class \x27bool\x27>, expected <class \x27dict\x27>") ∧
    construct (.dict [("keyspace", .int 7)]) "/b" =
      .error (.configValidationError "keyspace" (.int 7)
        "Value has wrong type <class \x27int\x27>, expected <class \x27str\x27>") := by
  constructor
  · exact c4_type_mismatch.1 (.dict [("p", .bool true)]) "p" .emptyDefault
      none .dict "" (.bool true) rfl rfl
  · exact c4_type_mismatch.2 [("keyspace", .int 7)] "/b" 7 rfl

/-- Inversion of a successful construction: each attribute extraction
succeeded, and the configuration is assembled from the extracted
values. -/
theorem construct_ok_inv (m : List (String × Value)) (bp : String)
    (c : MigrationConfigData) (h : construct (.dict m) bp = .ok c) :
    ∃ kv up profItems mpv mtv nnv ntv,
      extract_config_entry (.dict m) "keyspace" .emptyDefault
          (some identifierValidator) (some .str) "" = .ok kv ∧
      extract_config_entry (.dict m) "profiles" (.withDefault (.dict []))
          none (some .dict) "" = .ok up ∧
      (pyDictEntries up).mapM
          (fun (p : String × Value) =>
            (extract_profile p.2 p.1).map (fun v => (p.1, v))) =
        .ok profItems ∧
      extract_config_entry (.dict m) "migrations_path" .emptyDefault
          none (some .str) "" = .ok mpv ∧
      extract_config_entry (.dict m) "migrations_table"
          (.withDefault (.str "database_migrations"))
          (some identifierValidator) (some .str) "" = .ok mtv ∧
      extract_config_entry (.dict m) "new_migration_name"
          (.withDefault (.str "v\x7bnext_version\x7d_\x7bdesc\x7d"))
          (some formatStringValidator) (some .str) "" = .ok nnv ∧
      extract_config_entry (.dict m) "new_migration_text"
          (.withDefault (.str DEFAULT_NEW_MIGRATION_TEXT))
          (some formatStringValidator) (some .str) "" = .ok ntv ∧
      c = { keyspace := asStr kv
            profiles := dictUpdate DEFAULT_PROFILES profItems
            migrations_path := os_path_join bp (asStr mpv)
            migrations_table := asStr mtv
            new_migration_name := asStr nnv
            new_migration_text := asStr ntv } := by
  unfold construct at h
  split at h
  · cases h
  · rename_i kv hkv
    split at h
    · cases h
    · rename_i up hup
      split at h
      · cases h
      · rename_i profItems hpi
        split at h
        · cases h
        · rename_i mpv hmp
          split at h
          · cases h
          · rename_i mtv hmt
            split at h
            · cases h
            · rename_i nnv hnn
              split at h
              · cases h
              · rename_i ntv hnt
                simp only [Except.ok.injEq] at h
                exact ⟨kv, up, profItems, mpv, mtv, nnv, ntv,
                  hkv, hup, hpi, hmp, hmt, hnn, hnt, h.symm⟩

/-- C2 counterexample: a valid document omitting `profiles` constructs a
configuration whose `dev` profile is
`\x7breplication: \x7bclass: SimpleStrategy, replication_factor: 1\x7d\x7d` with no
`durable_writes` entry at all — the built-in `DEFAULT_PROFILES` is copied
verbatim and never passes through `extract_profile`, so the claimed
`durableWrites: true` entry is absent. -/
theorem c2_counterexample :
    ∃ c, construct (.dict [("keyspace", Value.str "ks"),
        ("migrations_path", Value.str "m"),
        ("new_migration_text", Value.str "\x7bdesc\x7d")]) "/b" = .ok c ∧
      dictKeys ((c.profiles.lookup "dev").getD .null) = ["replication"] ∧
      ∀ rep dw, (c.profiles.lookup "dev").getD .null ≠
        Value.dict [("replication", rep), ("durable_writes", dw)] := by
  refine ⟨{ keyspace := "ks"
            profiles := [("dev", Value.dict [("replication",
              Value.dict [("class", Value.str "SimpleStrategy"),
                          ("replication_factor", Value.int 1)])])]
            migrations_path := "/b/m"
            migrations_table := "database_migrations"
            new_migration_name := "v\x7bnext_version\x7d_\x7bdesc\x7d"
            new_migration_text := "\x7bdesc\x7d" }, rfl, rfl, ?_⟩
  intro rep dw h
  simp only [List.lookup] at h
  simp at h

/-- C2 amended: for every document omitting `profiles` (or mapping it to
null) from which construction succeeds, the resulting profiles mapping is
exactly the one-entry built-in default
`[dev ↦ \x7breplication: \x7bclass: SimpleStrategy, replication_factor: 1\x7d\x7d]`;
the `dev` value carries no `durable_writes` key (the `durableWrites: true`
defaulting of `extract_profile` applies only to user-supplied
profiles). -/
theorem c2_profiles_default (m : List (String × Value)) (bp : String)
    (c : MigrationConfigData)
    (hprof : m.lookup "profiles" = none ∨ m.lookup "profiles" = some .null)
    (h : construct (.dict m) bp = .ok c) :
    c.profiles = [("dev", Value.dict [("replication",
      Value.dict [("class", Value.str "SimpleStrategy"),
                  ("replication_factor", Value.int 1)])])] := by
  obtain ⟨kv, up, profItems, mpv, mtv, nnv, ntv,
    hkv, hup, hpi, hmp, hmt, hnn, hnt, hc⟩ := construct_ok_inv m bp c h
  have hpe : extract_config_entry (.dict m) "profiles" (.withDefault (.dict []))
      none (some .dict) "" = .ok (.dict []) := by
    simp only [extract_config_entry,
      resolve_entry_null m "profiles" (.withDefault (.dict [])) _ hprof]
    rfl
  rw [hpe] at hup
  simp only [Except.ok.injEq] at hup
  subst hup
  have hred : (pyDictEntries (Value.dict [])).mapM
      (fun (p : String × Value) =>
        (extract_profile p.2 p.1).map (fun v => (p.1, v))) =
      (Except.ok [] : Except PyError (List (String × Value))) := rfl
  rw [hred] at hpi
  have hpi0 := Except.ok.inj hpi
  subst hpi0
  rw [hc]
  rfl

theorem c2_witness :
    ∃ c, construct (.dict [("keyspace", Value.str "ks2"),
        ("migrations_path", Value.str "mm"),
        ("new_migration_text", Value.str "\x7bdate\x7d")]) "/w" = .ok c ∧
      c.profiles = [("dev", Value.dict [("replication",
        Value.dict [("class", Value.str "SimpleStrategy"),
                    ("replication_factor", Value.int 1)])])] := by
  refine ⟨{ keyspace := "ks2"
            profiles := [("dev", Value.dict [("replication",
              Value.dict [("class", Value.str "SimpleStrategy"),
                          ("replication_factor", Value.int 1)])])]
            migrations_path := "/w/mm"
            migrations_table := "database_migrations"
            new_migration_name := "v\x7bnext_version\x7d_\x7bdesc\x7d"
            new_migration_text := "\x7bdate\x7d" }, rfl, ?_⟩
  exact c2_profiles_default [("keyspace", Value.str "ks2"),
    ("migrations_path", Value.str "mm"),
    ("new_migration_text", Value.str "\x7bdate\x7d")] "/w" _ (Or.inl rfl) rfl

/-- C9: for every document whose `migrations_path` entry is the string
`p` and every base path, a successful construction resolves the
configuration\x27s `migrations_path` to `os.path.join(base_path, p)`; in
particular `"migrations"` under base path `"/app/conf"` resolves to
`"/app/conf/migrations"` (witness). -/
theorem c9_migrations_path (m : List (String × Value)) (bp p : String)
    (c : MigrationConfigData)
    (hm : m.lookup "migrations_path" = some (.str p))
    (h : construct (.dict m) bp = .ok c) :
    c.migrations_path = os_path_join bp p := by
  obtain ⟨kv, up, profItems, mpv, mtv, nnv, ntv,
    hkv, hup, hpi, hmp, hmt, hnn, hnt, hc⟩ := construct_ok_inv m bp c h
  have hpe : extract_config_entry (.dict m) "migrations_path" .emptyDefault
      none (some .str) "" = .ok (.str p) := by
    simp only [extract_config_entry, resolve_entry, py_dict_get, hm, Option.getD]
    rfl
  rw [hpe] at hmp
  have hmp0 := Except.ok.inj hmp
  subst hmp0
  rw [hc]
  rfl

theorem c9_witness :
    ∃ c, construct (.dict [("keyspace", Value.str "ks"),
        ("migrations_path", Value.str "migrations"),
        ("new_migration_text", Value.str "\x7bkeyspace\x7d")]) "/app/conf" = .ok c ∧
      c.migrations_path = "/app/conf/migrations" := by
  refine ⟨{ keyspace := "ks"
            profiles := [("dev", Value.dict [("replication",
              Value.dict [("class", Value.str "SimpleStrategy"),
                          ("replication_factor", Value.int 1)])])]
            migrations_path := "/app/conf/migrations"
            migrations_table := "database_migrations"
            new_migration_name := "v\x7bnext_version\x7d_\x7bdesc\x7d"
            new_migration_text := "\x7bkeyspace\x7d" }, rfl, ?_⟩
  exact (c9_migrations_path [("keyspace", Value.str "ks"),
    ("migrations_path", Value.str "migrations"),
    ("new_migration_text", Value.str "\x7bkeyspace\x7d")] "/app/conf"
    "migrations" _ rfl rfl).trans rfl

/-- Lookup misses a list none of whose keys is `k`. -/
theorem lookup_none_of_no_key (junk : List (String × Value)) (k : String)
    (h : ∀ p ∈ junk, p.1 ≠ k) : junk.lookup k = none := by
  induction junk with
  | nil => rfl
  | cons p rest ih =>
    have hp : p.1 ≠ k := h p (by simp)
    obtain ⟨pk, pv⟩ := p
    simp only [List.lookup]
    rw [show (k == pk) = false from beq_eq_false_iff_ne.mpr (Ne.symm hp)]
    exact ih (fun q hq => h q (List.mem_cons_of_mem _ hq))

/-- Appending entries whose keys differ from `k` does not change a
lookup of `k`. -/
theorem lookup_append_no_key (m junk : List (String × Value)) (k : String)
    (h : ∀ p ∈ junk, p.1 ≠ k) : (m ++ junk).lookup k = m.lookup k := by
  induction m with
  | nil => simpa using lookup_none_of_no_key junk k h
  | cons p rest ih =>
    obtain ⟨pk, pv⟩ := p
    simp only [List.cons_append, List.lookup]
    cases hb : (k == pk)
    · simpa [hb] using ih
    · rfl

/-- The function `extract_config_entry` depends on the document only through the
lookup of its key. -/
theorem extract_congr (d1 d2 : List (String × Value)) (k : String)
    (hl : d1.lookup k = d2.lookup k) (df : DefaultArg)
    (v : Option (Value → Except PyError Unit)) (t : Option PyType)
    (pfx : String) :
    extract_config_entry (.dict d1) k df v t pfx =
      extract_config_entry (.dict d2) k df v t pfx := by
  simp only [extract_config_entry, resolve_entry, py_dict_get, hl]

/-- Construction depends on the document only through the lookups of the
six recognized top-level keys. -/
theorem construct_congr (d1 d2 : List (String × Value)) (bp : String)
    (h : ∀ k, RECOGNIZED_TOP_LEVEL_KEYS.contains k = true →
      d1.lookup k = d2.lookup k) :
    construct (.dict d1) bp = construct (.dict d2) bp := by
  have e1 := extract_congr d1 d2 "keyspace" (h _ (by decide)) .emptyDefault
    (some identifierValidator) (some .str) ""
  have e2 := extract_congr d1 d2 "profiles" (h _ (by decide))
    (.withDefault (.dict [])) none (some .dict) ""
  have e3 := extract_congr d1 d2 "migrations_path" (h _ (by decide))
    .emptyDefault none (some .str) ""
  have e4 := extract_congr d1 d2 "migrations_table" (h _ (by decide))
    (.withDefault (.str "database_migrations")) (some identifierValidator)
    (some .str) ""
  have e5 := extract_congr d1 d2 "new_migration_name" (h _ (by decide))
    (.withDefault (.str "v\x7bnext_version\x7d_\x7bdesc\x7d"))
    (some formatStringValidator) (some .str) ""
  have e6 := extract_congr d1 d2 "new_migration_text" (h _ (by decide))
    (.withDefault (.str DEFAULT_NEW_MIGRATION_TEXT))
    (some formatStringValidator) (some .str) ""
  unfold construct
  rw [e1, e2, e3, e4, e5, e6]

/-- C10 counterexample: the conjunct "every profile stored in the
resulting configuration contains exactly the two keys `replication` and
`durable_writes`" fails for the built-in `dev` profile, which carries
only `replication`. -/
theorem c10_counterexample :
    ∃ c, construct (.dict [("keyspace", Value.str "kx"),
        ("migrations_path", Value.str "mp"),
        ("new_migration_text", Value.str "\x7bfull_desc\x7d")]) "/r" = .ok c ∧
      ∃ v, c.profiles = [("dev", v)] ∧
        dictKeys v ≠ ["replication", "durable_writes"] := by
  refine ⟨{ keyspace := "kx"
            profiles := [("dev", Value.dict [("replication",
              Value.dict [("class", Value.str "SimpleStrategy"),
                          ("replication_factor", Value.int 1)])])]
            migrations_path := "/r/mp"
            migrations_table := "database_migrations"
            new_migration_name := "v\x7bnext_version\x7d_\x7bdesc\x7d"
            new_migration_text := "\x7bfull_desc\x7d" }, rfl,
    Value.dict [("replication", Value.dict [("class", Value.str "SimpleStrategy"),
      ("replication_factor", Value.int 1)])], rfl, ?_⟩
  decide

/-- C10 amended: construction ignores unrecognized top-level document
keys (appending entries with unrecognized keys leaves the result
unchanged), and every profile normalized by `extract_profile` — that is,
every user-supplied profile — contains exactly the keys `replication` and
`durable_writes`, extra fields being dropped without error; the built-in
`dev` default, copied verbatim, is the one profile not of this shape. -/
theorem c10_unrecognized_content_ignored :
    (∀ (m junk : List (String × Value)) (bp : String),
      (∀ p ∈ junk, RECOGNIZED_TOP_LEVEL_KEYS.contains p.1 = false) →
      construct (.dict (m ++ junk)) bp = construct (.dict m) bp) ∧
    (∀ (pd : Value) (name : String) (r : Value),
      extract_profile pd name = .ok r →
      ∃ rep dw, r = Value.dict [("replication", rep), ("durable_writes", dw)]) := by
  constructor
  · intro m junk bp hj
    apply construct_congr
    intro k hk
    apply lookup_append_no_key
    intro p hp hpk
    have hc := hj p hp
    rw [hpk, hk] at hc
    cases hc
  · intro pd name r h
    unfold extract_profile at h
    split at h
    · cases h
    · split at h
      · cases h
      · simp only [Except.ok.injEq] at h
        exact ⟨_, _, h.symm⟩

theorem c10_witness :
    construct (.dict ([("keyspace", Value.str "a"),
        ("migrations_path", Value.str "b"),
        ("new_migration_text", Value.str "\x7bdesc\x7d")] ++
        [("zzz", Value.int 1), ("hosts", Value.str "h")])) "/q" =
      construct (.dict [("keyspace", Value.str "a"),
        ("migrations_path", Value.str "b"),
        ("new_migration_text", Value.str "\x7bdesc\x7d")]) "/q" ∧
    (∃ rep dw, (Value.dict [("replication", Value.dict []),
        ("durable_writes", Value.bool true)] : Value) =
        Value.dict [("replication", rep), ("durable_writes", dw)]) := by
  constructor
  · exact c10_unrecognized_content_ignored.1 _ _ "/q" (by decide)
  · exact c10_unrecognized_content_ignored.2
      (.dict [("replication", Value.dict []), ("extra", Value.int 5)]) "p"
      (Value.dict [("replication", Value.dict []),
        ("durable_writes", Value.bool true)]) rfl

/-- Structure eta for strings. -/
theorem string_mk_data (s : String) : String.mk s.data = s := rfl

/-- An empty format spec leaves a string unchanged
(`format(s, "") = s`). -/
theorem py_str_format_empty (s : String) : py_str_format s "" = .ok s := by
  simp [py_str_format, spanDigits, string_mk_data]

/-- Straight-line rendering of parsed chunks: each literal text followed
by the mapping value of its field, if any (the reference result for
claim C7). -/
def renderSimpleChunks : List FormatChunk → List (String × String) → String
  | [], _ => ""
  | ch :: rest, kwargs =>
    match ch.field_name with
    | some f => ch.literal_text ++ ((kwargs.lookup f).getD "") ++
        renderSimpleChunks rest kwargs
    | none => ch.literal_text ++ renderSimpleChunks rest kwargs

/-- A chunk is simple when it is literal-only, or a plain reference to
one of the five migration format fields with empty format spec and no
conversion. -/
def goodChunk (ch : FormatChunk) : Bool :=
  match ch.field_name with
  | none => true
  | some f => (ch.format_spec == some "") && (ch.conversion == none) &&
      MIGRATION_FORMAT_STRING_FIELDS.contains f

theorem fieldFirst_plain (l : List Char)
    (h : ∀ c ∈ l, ¬(c = '.' ∨ c = '[')) : fieldFirst l = (l, false) := by
  induction l with
  | nil => rfl
  | cons c rest ih =>
    rw [fieldFirst, if_neg (h c (by simp))]
    rw [ih (fun d hd => h d (List.mem_cons_of_mem _ hd))]

/-- The five migration format field names are nonempty, not all-digit,
and accessor-free. -/
theorem migration_field_props (f : String)
    (hf : MIGRATION_FORMAT_STRING_FIELDS.contains f = true) :
    f ≠ "" ∧ ¬(f.data ≠ [] ∧ f.data.all Char.isDigit = true) ∧
      fieldFirst f.data = (f.data, false) := by
  have hmem : f = "desc" ∨ f = "full_desc" ∨ f = "next_version" ∨
      f = "date" ∨ f = "keyspace" := by
    simpa [MIGRATION_FORMAT_STRING_FIELDS] using hf
  rcases hmem with rfl | rfl | rfl | rfl | rfl <;>
    exact ⟨by decide, by decide, by decide⟩

theorem lookup_some_of_keys_contains (kwargs : List (String × String))
    (f : String) (h : (kwargs.map Prod.fst).contains f = true) :
    ∃ v, kwargs.lookup f = some v := by
  induction kwargs with
  | nil => simp at h
  | cons p rest ih =>
    obtain ⟨pk, pv⟩ := p
    cases hb : (f == pk) with
    | true =>
      refine ⟨pv, ?_⟩
      simp only [List.lookup, hb]
    | false =>
      have hr : (rest.map Prod.fst).contains f = true := by
        simp only [List.map_cons, List.contains_cons, hb, Bool.false_or] at h
        exact h
      obtain ⟨v, hv⟩ := ih hr
      refine ⟨v, ?_⟩
      simp only [List.lookup, hb, hv]

theorem autoNumberStep_plain (f : String) (auto : Option Nat) (h1 : f ≠ "")
    (h2 : ¬(f.data ≠ [] ∧ f.data.all Char.isDigit = true)) :
    autoNumberStep f auto = .ok (f, auto) := by
  simp only [autoNumberStep, if_neg h1, if_neg h2]

theorem get_field_plain (f : String) (args : List String)
    (kwargs : List (String × String)) (v : String)
    (hplain : fieldFirst f.data = (f.data, false))
    (h2 : ¬(f.data ≠ [] ∧ f.data.all Char.isDigit = true))
    (hlook : kwargs.lookup f = some v) :
    get_field f args kwargs = .ok v := by
  have hcond : (decide (f.data ≠ []) && f.data.all Char.isDigit) = false := by
    by_cases he : f.data = []
    · simp [he]
    · by_cases hd : f.data.all Char.isDigit
      · exact absurd ⟨he, hd⟩ h2
      · simp [hd]
  rw [get_field, hplain]
  dsimp only
  rw [hcond]
  simp only [Bool.false_eq_true, if_false]
  rw [string_mk_data, hlook]

/-- The `_vformat` loop on a template all of whose parsed chunks are
simple renders it as literal text with field values substituted, leaving
the automatic index unchanged. -/
theorem vfLoopF_renders (args : List String) (kwargs : List (String × String))
    (recurse : String → Option Nat → Except PyError (String × Option Nat))
    (hrec : ∀ a, recurse "" a = .ok ("", a))
    (hcover : ∀ f, MIGRATION_FORMAT_STRING_FIELDS.contains f = true →
      ∃ v, kwargs.lookup f = some v) :
    ∀ (fuel : Nat) (s : List Char) (chunks : List FormatChunk)
      (auto : Option Nat),
      parseChunksF fuel s = .ok chunks →
      (∀ ch ∈ chunks, goodChunk ch = true) →
      vfLoopF args kwargs recurse fuel s auto =
        .ok (renderSimpleChunks chunks kwargs, auto) := by
  intro fuel
  induction fuel with
  | zero =>
    intro s chunks auto hp hg
    simp [parseChunksF] at hp
  | succ fuel ih =>
    intro s chunks auto hp hg
    rw [parseChunksF] at hp
    rw [vfLoopF]
    cases hnc : nextChunk s with
    | error e => rw [hnc] at hp; simp at hp
    | ok o =>
      cases o with
      | none =>
        rw [hnc] at hp
        simp only [Except.ok.injEq] at hp
        subst hp
        rfl
      | some pr =>
        obtain ⟨ch, rest⟩ := pr
        rw [hnc] at hp
        dsimp only at hp
        cases hrest : parseChunksF fuel rest with
        | error e => rw [hrest] at hp; cases hp
        | ok chunks2 =>
          rw [hrest] at hp
          simp only [Except.ok.injEq] at hp
          subst hp
          have hgch : goodChunk ch = true := hg ch (by simp)
          have hgrest : ∀ c ∈ chunks2, goodChunk c = true :=
            fun c hc => hg c (by simp [hc])
          dsimp only
          cases hfn : ch.field_name with
          | none =>
            cases hfs2 : ch.format_spec <;>
              simp only [ih rest chunks2 auto hrest hgrest,
                renderSimpleChunks, hfn]
          | some f =>
            rw [goodChunk, hfn] at hgch
            simp only [Bool.and_eq_true, beq_iff_eq] at hgch
            obtain ⟨⟨hspec, hconv⟩, hmemf⟩ := hgch
            obtain ⟨hne, hnd, hplain⟩ := migration_field_props f hmemf
            obtain ⟨v, hv⟩ := hcover f hmemf
            rw [hspec]
            dsimp only
            rw [autoNumberStep_plain f auto hne hnd]
            dsimp only
            rw [get_field_plain f args kwargs v hplain hnd hv]
            dsimp only
            rw [hconv]
            dsimp only [convert_field]
            rw [hrec auto]
            dsimp only
            rw [py_str_format_empty]
            dsimp only
            rw [ih rest chunks2 auto hrest hgrest]
            rw [renderSimpleChunks, hfn]
            dsimp only
            rw [hv]
            rfl

/-- C7: given a template whose parse succeeds with every chunk either
literal or a plain reference to one of the five fixed fields (empty
format spec, no conversion) — which is what a migration template\x27s
"field references" are — and a field mapping whose key set equals the
fixed set exactly, `format_migration_string` renders the template with
each field reference substituted by its value; in particular
`\x7bkeyspace\x7d-\x7bnext_version\x7d` with keyspace `ks1` and next_version `3`
renders `ks1-3` (witness). -/
theorem c7_format_migration_string_renders (fmt : String)
    (kwargs : List (String × String)) (chunks : List FormatChunk)
    (hp : parseChunks fmt.data = .ok chunks)
    (hg : ∀ ch ∈ chunks, goodChunk ch = true)
    (hk : sameKeySet (kwargs.map Prod.fst) MIGRATION_FORMAT_STRING_FIELDS = true) :
    format_migration_string fmt kwargs =
      .ok (renderSimpleChunks chunks kwargs) := by
  have hcover : ∀ f, MIGRATION_FORMAT_STRING_FIELDS.contains f = true →
      ∃ v, kwargs.lookup f = some v := by
    intro f hf
    apply lookup_some_of_keys_contains
    have h2 : MIGRATION_FORMAT_STRING_FIELDS.all
        (fun g => (kwargs.map Prod.fst).contains g) = true := by
      simp only [sameKeySet, Bool.and_eq_true] at hk
      exact hk.2
    have hfmem : f ∈ MIGRATION_FORMAT_STRING_FIELDS := by
      simpa using hf
    exact List.all_eq_true.mp h2 f hfmem
  have hrec : ∀ a, pyVFormat [] kwargs 2 "" a = .ok ("", a) := fun a => rfl
  have hp2 : parseChunksF (fmt.data.length + 1) fmt.data = .ok chunks := hp
  have hmain := vfLoopF_renders [] kwargs
    (fun sp a => pyVFormat [] kwargs 2 sp a) hrec hcover
    (fmt.data.length + 1) fmt.data chunks (some 0) hp2 hg
  have hunf : formatter_vformat fmt [] kwargs =
      (match vfLoopF [] kwargs (fun sp a => pyVFormat [] kwargs 2 sp a)
          (fmt.data.length + 1) fmt.data (some 0) with
       | .ok (res, _) => (Except.ok res : Except PyError String)
       | .error e => .error e) := rfl
  simp only [format_migration_string, hk, if_true]
  rw [hunf, hmain]

theorem c7_witness :
    format_migration_string "\x7bkeyspace\x7d-\x7bnext_version\x7d"
      [("keyspace", "ks1"), ("next_version", "3"), ("desc", ""),
       ("full_desc", ""), ("date", "")] = .ok "ks1-3" := by
  have h := c7_format_migration_string_renders "\x7bkeyspace\x7d-\x7bnext_version\x7d"
    [("keyspace", "ks1"), ("next_version", "3"), ("desc", ""),
     ("full_desc", ""), ("date", "")]
    [{ literal_text := "", field_name := some "keyspace",
       format_spec := some "", conversion := none },
     { literal_text := "-", field_name := some "next_version",
       format_spec := some "", conversion := none }]
    rfl (by decide) (by decide)
  exact h.trans rfl
